import Mathlib

/-!
Verification of the mini social network backend (Rust, axum + tokio-postgres).

Shallow embedding of the repository's source:
  - src/models.rs   : record shapes (User, Post, Like, request bodies)
  - src/auth.rs     : JWT token service (create_jwt / verify_jwt)
  - src/db.rs       : Database methods issuing SQL against the store
  - src/handlers.rs : HTTP handlers mapping Database results to responses

Modelling conventions:
  - Uuid is modelled as Nat; timestamps (SystemTime seconds, chrono instants,
    the store's CURRENT_TIMESTAMP) as Nat seconds.
  - The postgres store is a triple of lists (users, posts, likes).  The schema
    created by Database::init (db.rs lines 18-44) is encoded as behaviour of
    the insert operations: PRIMARY KEY / UNIQUE violations and REFERENCES
    (foreign key) violations make an INSERT fail, which tokio-postgres
    surfaces as Err; the model returns Except.error () for exactly those.
  - Each Database method of db.rs is one Lean function of the same name.
    A method returning Result<T, Error> becomes Except Unit (T × DBState),
    threading the store state; read-only methods do not thread state.
  - Each handler of handlers.rs is one Lean function of the same name,
    returning the post-state together with Except, whose error side is the
    (StatusCode, error message) pair the handler builds; the json wrapper
    around the message string is dropped.
  - bcrypt (external crate) is modelled by a deterministic hash; the claims
    settled here do not depend on salting, only on the lookup / verify
    branching of the login handler.
  - jsonwebtoken (external crate) is modelled by its documented default
    validation: signature check plus expiry check with the default leeway of
    60 seconds, expired exactly when exp < now - leeway (u64 arithmetic,
    modelled with truncating Nat subtraction).
-/

/-- User record (models.rs lines 4-9): id UUID, unique username, bcrypt hash. -/
structure User where
  id : Nat
  username : String
  password_hash : String
deriving DecidableEq, Repr

/-- Post record (models.rs lines 11-18). -/
structure Post where
  id : Nat
  user_id : Nat
  content : String
  likes_count : Int
  created_at : Nat
deriving DecidableEq, Repr

/-- Like row of the likes table (db.rs lines 36-40): (post_id, user_id). -/
structure Like where
  post_id : Nat
  user_id : Nat
deriving DecidableEq, Repr

/-- Body of POST /register (models.rs lines 20-24). -/
structure RegisterRequest where
  username : String
  password : String
deriving DecidableEq, Repr

/-- Body of POST /login (models.rs lines 26-30). -/
structure LoginRequest where
  username : String
  password : String
deriving DecidableEq, Repr

/-- Body of POST /posts (models.rs lines 32-35): just the content. -/
structure CreatePostRequest where
  content : String
deriving DecidableEq, Repr

/-- The store state: contents of the three tables created by Database::init. -/
structure DBState where
  users : List User
  posts : List Post
  likes : List Like
deriving DecidableEq, Repr

/-- The HTTP status codes used by handlers.rs. -/
inductive StatusCode where
  | CREATED
  | OK
  | NO_CONTENT
  | UNAUTHORIZED
  | NOT_FOUND
  | NOT_ACCEPTABLE
  | CONFLICT
  | INTERNAL_SERVER_ERROR
deriving DecidableEq, Repr

/-- A handler error response: status plus the error-message string of the
json body built in handlers.rs. -/
abbrev HErr := StatusCode × String

/-- JWT claims (auth.rs lines 8-12): subject user id and expiry (unix secs). -/
structure Claims where
  sub : Nat
  exp : Nat
deriving DecidableEq, Repr

/-- A JWT as the verifier sees it: its claims, and whether its signature
verifies against JWT_SECRET.  Tokens produced by create_jwt carry a valid
signature; a tampered or forged token has sig_ok = false (forging a valid
signature without the secret is assumed infeasible). -/
structure Token where
  claims : Claims
  sig_ok : Bool
deriving DecidableEq, Repr

/-- Default expiry leeway (seconds) of jsonwebtoken Validation::default(),
applied by verify_jwt through decode (auth.rs line 34). -/
def jwtLeeway : Nat := 60

/-- create_jwt (auth.rs lines 14-31): expiry is now + 24*3600 seconds, claims
are signed with JWT_SECRET.  The current time is an explicit parameter. -/
def create_jwt (user_id : Nat) (now : Nat) : Token :=
  { claims := { sub := user_id, exp := now + 24 * 3600 }, sig_ok := true }

/-- verify_jwt (auth.rs lines 33-42): decode with Validation::default()
checks the signature and the exp claim; the claim is expired exactly when
exp < now - leeway (Nat subtraction truncates at 0, as the u64 comparison
does for now below the leeway).  Any failure collapses to none. -/
def verify_jwt (t : Token) (now : Nat) : Option Nat :=
  if t.sig_ok && !(t.claims.exp < now - jwtLeeway) then some t.claims.sub
  else none

/-- Model of bcrypt::hash (deterministic stand-in; DEFAULT_COST and salt are
irrelevant to the properties proved here). -/
def bhash (password : String) : String := "bc$" ++ password

/-- Model of bcrypt::verify: the candidate password hashes to the stored
hash.  With the deterministic bhash this is a plain comparison. -/
def bverify (password : String) (hashed : String) : Bool :=
  hashed == bhash password

namespace Database

/-- Database::create_user (db.rs lines 46-54): INSERT INTO users.  The id
PRIMARY KEY and the username UNIQUE constraint make the INSERT fail (Err)
on a duplicate; otherwise one row is inserted and result > 0 holds. -/
def create_user (st : DBState) (u : User) : Except Unit (Bool × DBState) :=
  if st.users.any (fun x => x.id == u.id) ||
     st.users.any (fun x => x.username == u.username) then
    .error ()
  else
    .ok (true, { st with users := st.users ++ [u] })

/-- Database::get_user_by_username (db.rs lines 56-69): SELECT ... WHERE
username = $1, first matching row if any. -/
def get_user_by_username (st : DBState) (username : String) : Option User :=
  st.users.find? (fun u => u.username == username)

/-- Database::create_post (db.rs lines 71-79): INSERT INTO posts (id,
user_id, content).  The likes_count and created_at columns are not in the
column list, so the schema defaults apply: likes_count 0 and
CURRENT_TIMESTAMP (the dbNow parameter).  Fails on a duplicate id (PRIMARY
KEY) or a user_id not present in users (REFERENCES users(id)). -/
def create_post (st : DBState) (p : Post) (dbNow : Nat) :
    Except Unit (Bool × DBState) :=
  if st.posts.any (fun x => x.id == p.id) then .error ()
  else if !(st.users.any (fun u => u.id == p.user_id)) then .error ()
  else
    .ok (true, { st with posts := st.posts ++
      [{ id := p.id, user_id := p.user_id, content := p.content,
         likes_count := 0, created_at := dbNow }] })

/-- Database::get_post (db.rs lines 81-96): SELECT ... WHERE id = $1. -/
def get_post (st : DBState) (id : Nat) : Option Post :=
  st.posts.find? (fun p => p.id == id)

/-- Database::check_post_ownership (db.rs lines 128-137): EXISTS(SELECT 1
FROM posts WHERE id = $1 AND user_id = $2). -/
def check_post_ownership (st : DBState) (post_id user_id : Nat) : Bool :=
  st.posts.any (fun p => p.id == post_id && p.user_id == user_id)

/-- Database::check_post_exists (db.rs lines 139-148). -/
def check_post_exists (st : DBState) (post_id : Nat) : Bool :=
  st.posts.any (fun p => p.id == post_id)

/-- Database::like_exists (db.rs lines 150-159): EXISTS(SELECT 1 FROM likes
WHERE post_id = $1 AND user_id = $2). -/
def like_exists (st : DBState) (post_id user_id : Nat) : Bool :=
  st.likes.any (fun l => l.post_id == post_id && l.user_id == user_id)

/-- Database::delete_post (db.rs lines 98-109).  After the ownership check
the method executes DELETE FROM likes WHERE post_id = $1 — it deletes the
LIKES rows only, never the posts row — and returns result > 0, i.e. true
exactly when at least one likes row was deleted. -/
def delete_post (st : DBState) (id user_id : Nat) :
    Except Unit (Bool × DBState) :=
  if !(check_post_ownership st id user_id) then
    .ok (false, st)
  else
    let deleted := (st.likes.filter (fun l => l.post_id == id)).length
    .ok (decide (deleted > 0),
      { st with likes := st.likes.filter (fun l => !(l.post_id == id)) })

/-- Database::like_post (db.rs lines 111-126): Ok(false) when the post does
not exist or the like already exists; otherwise INSERT INTO likes, which the
store rejects (Err) when user_id violates REFERENCES users(id); on success
Ok(true). -/
def like_post (st : DBState) (post_id user_id : Nat) :
    Except Unit (Bool × DBState) :=
  if !(check_post_exists st post_id) then .ok (false, st)
  else if like_exists st post_id user_id then .ok (false, st)
  else if !(st.users.any (fun u => u.id == user_id)) then .error ()
  else .ok (true, { st with likes := st.likes ++ [⟨post_id, user_id⟩] })

end Database

namespace Handlers

/-- extract_user_id (handlers.rs lines 76-90): the request either carries no
bearer token (none) or some token; a missing header is 401, a token that
fails verify_jwt is 401. -/
def extract_user_id (auth : Option Token) (now : Nat) : Except HErr Nat :=
  match auth with
  | none => .error (.UNAUTHORIZED, "Missing authorization header")
  | some t =>
    match verify_jwt t now with
    | none => .error (.UNAUTHORIZED, "Invalid token")
    | some uid => .ok uid

/-- register (handlers.rs lines 15-45): hash the password, build the User
with a fresh uuid (the newId parameter), insert it; any store Err maps to
500 "Database error"; on success issue a token and return 201. -/
def register (st : DBState) (req : RegisterRequest) (newId now : Nat) :
    Except HErr (StatusCode × Token) × DBState :=
  let user : User :=
    { id := newId, username := req.username, password_hash := bhash req.password }
  match Database.create_user st user with
  | .error _ => (.error (.INTERNAL_SERVER_ERROR, "Database error"), st)
  | .ok (result, st') =>
    if !result then (.error (.INTERNAL_SERVER_ERROR, "Database error"), st)
    else (.ok (.CREATED, create_jwt user.id now), st')

/-- login (handlers.rs lines 47-74): look the user up by username; absent
user yields 401 "Invalid credentials"; a present user whose stored hash does
not verify against the supplied password yields the same 401 "Invalid
credentials"; otherwise a fresh token is returned (200). -/
def login (st : DBState) (req : LoginRequest) (now : Nat) :
    Except HErr (StatusCode × Token) × DBState :=
  match Database.get_user_by_username st req.username with
  | none => (.error (.UNAUTHORIZED, "Invalid credentials"), st)
  | some user =>
    if !(bverify req.password user.password_hash) then
      (.error (.UNAUTHORIZED, "Invalid credentials"), st)
    else
      (.ok (.OK, create_jwt user.id now), st)

/-- create_post (handlers.rs lines 92-121): authenticate, build the Post
with a fresh uuid, likes_count 0 and the current timestamp, insert it; store
Err or a zero row count map to 500; success returns 201 with the post. -/
def create_post (st : DBState) (auth : Option Token)
    (req : CreatePostRequest) (newId now : Nat) :
    Except HErr (StatusCode × Post) × DBState :=
  match extract_user_id auth now with
  | .error e => (.error e, st)
  | .ok user_id =>
    let post : Post :=
      { id := newId, user_id := user_id, content := req.content,
        likes_count := 0, created_at := now }
    match Database.create_post st post now with
    | .error _ => (.error (.INTERNAL_SERVER_ERROR, "Database error"), st)
    | .ok (result, st') =>
      if !result then (.error (.INTERNAL_SERVER_ERROR, "Database error"), st)
      else (.ok (.CREATED, post), st')

/-- get_post (handlers.rs lines 123-138): unauthenticated read; absent post
is 404 "Post not found". -/
def get_post (st : DBState) (id : Nat) : Except HErr Post :=
  match Database.get_post st id with
  | none => .error (.NOT_FOUND, "Post not found")
  | some post => .ok post

/-- delete_post (handlers.rs lines 140-161): authenticate, call
Database::delete_post; Ok(false) maps to 404 "Post not found or
unauthorized"; Ok(true) is 204 No Content. -/
def delete_post (st : DBState) (auth : Option Token) (id now : Nat) :
    Except HErr StatusCode × DBState :=
  match extract_user_id auth now with
  | .error e => (.error e, st)
  | .ok user_id =>
    match Database.delete_post st id user_id with
    | .error _ => (.error (.INTERNAL_SERVER_ERROR, "Database error"), st)
    | .ok (result, st') =>
      if !result then
        (.error (.NOT_FOUND, "Post not found or unauthorized"), st')
      else (.ok .NO_CONTENT, st')

/-- like_post (handlers.rs lines 163-183): authenticate, call
Database::like_post; Ok(false) (post absent or already liked) maps to 406
"Post not found or already liked"; Ok(true) is 200. -/
def like_post (st : DBState) (auth : Option Token) (id now : Nat) :
    Except HErr StatusCode × DBState :=
  match extract_user_id auth now with
  | .error e => (.error e, st)
  | .ok user_id =>
    match Database.like_post st id user_id with
    | .error _ => (.error (.INTERNAL_SERVER_ERROR, "Database error"), st)
    | .ok (result, st') =>
      if !result then
        (.error (.NOT_ACCEPTABLE, "Post not found or already liked"), st')
      else (.ok .OK, st')

end Handlers

/-- No two distinct likes share both ids — the PRIMARY KEY (post_id,
user_id) of the likes table. -/
def LikesDistinct (ls : List Like) : Prop :=
  ls.Pairwise (fun a b => ¬(a.post_id = b.post_id ∧ a.user_id = b.user_id))

/-- Every like references an existing post and an existing user — the two
REFERENCES constraints of the likes table. -/
def LikesRefsOk (st : DBState) : Prop :=
  ∀ l ∈ st.likes, Database.check_post_exists st l.post_id = true ∧
    st.users.any (fun u => u.id == l.user_id) = true

/-- The likes-table invariant of the data model. -/
def LikesInvariant (st : DBState) : Prop :=
  LikesRefsOk st ∧ LikesDistinct st.likes

/-- Every stored post still carries its creation-default likes_count of 0. -/
def PostsLikesCountZero (st : DBState) : Prop :=
  ∀ p ∈ st.posts, p.likes_count = 0

/-- Combined store invariant maintained by every operation. -/
def Invariant (st : DBState) : Prop :=
  LikesInvariant st ∧ PostsLikesCountZero st

/-- States reachable from the empty store by any sequence of the service's
operations with arbitrary request bodies, tokens, fresh-uuid choices and
times.  get_post (handlers.rs lines 123-138) performs a read only and
returns no state, so it has no step; login is included although it never
changes the store. -/
inductive Reachable : DBState → Prop
  | init : Reachable ⟨[], [], []⟩
  | step_register (st : DBState) (req : RegisterRequest) (newId now : Nat) :
      Reachable st → Reachable (Handlers.register st req newId now).2
  | step_login (st : DBState) (req : LoginRequest) (now : Nat) :
      Reachable st → Reachable (Handlers.login st req now).2
  | step_create_post (st : DBState) (auth : Option Token)
      (req : CreatePostRequest) (newId now : Nat) :
      Reachable st → Reachable (Handlers.create_post st auth req newId now).2
  | step_delete_post (st : DBState) (auth : Option Token) (id now : Nat) :
      Reachable st → Reachable (Handlers.delete_post st auth id now).2
  | step_like_post (st : DBState) (auth : Option Token) (id now : Nat) :
      Reachable st → Reachable (Handlers.like_post st auth id now).2

theorem invariant_users_append (st : DBState) (u : User) (h : Invariant st) :
    Invariant { st with users := st.users ++ [u] } := by
  obtain ⟨⟨hrefs, hdist⟩, hzero⟩ := h
  refine ⟨⟨?_, hdist⟩, hzero⟩
  intro l hl
  obtain ⟨hp, hu⟩ := hrefs l hl
  refine ⟨hp, ?_⟩
  simp only [List.any_append, hu, Bool.true_or]

theorem invariant_posts_append (st : DBState) (p : Post)
    (hz : p.likes_count = 0) (h : Invariant st) :
    Invariant { st with posts := st.posts ++ [p] } := by
  obtain ⟨⟨hrefs, hdist⟩, hzero⟩ := h
  refine ⟨⟨?_, hdist⟩, ?_⟩
  · intro l hl
    obtain ⟨hp, hu⟩ := hrefs l hl
    refine ⟨?_, hu⟩
    simp only [Database.check_post_exists] at hp ⊢
    simp only [List.any_append, hp, Bool.true_or]
  · intro q hq
    rcases List.mem_append.mp hq with hq | hq
    · exact hzero q hq
    · simp only [List.mem_singleton] at hq
      exact hq ▸ hz

theorem invariant_likes_filter (st : DBState) (q : Like → Bool)
    (h : Invariant st) :
    Invariant { st with likes := st.likes.filter q } := by
  obtain ⟨⟨hrefs, hdist⟩, hzero⟩ := h
  refine ⟨⟨?_, ?_⟩, hzero⟩
  · intro l hl
    exact hrefs l (List.mem_of_mem_filter hl)
  · exact hdist.sublist (List.filter_sublist st.likes)

theorem invariant_likes_append (st : DBState) (pid uid : Nat)
    (hp : Database.check_post_exists st pid = true)
    (hu : st.users.any (fun u => u.id == uid) = true)
    (hne : Database.like_exists st pid uid = false)
    (h : Invariant st) :
    Invariant { st with likes := st.likes ++ [⟨pid, uid⟩] } := by
  obtain ⟨⟨hrefs, hdist⟩, hzero⟩ := h
  refine ⟨⟨?_, ?_⟩, hzero⟩
  · intro l hl
    rcases List.mem_append.mp hl with hl | hl
    · exact hrefs l hl
    · simp only [List.mem_singleton] at hl
      subst hl
      exact ⟨hp, hu⟩
  · refine List.pairwise_append.mpr ⟨hdist, List.pairwise_singleton _ _, ?_⟩
    intro a ha b hb
    simp only [List.mem_singleton] at hb
    subst hb
    intro ⟨h1, h2⟩
    have : st.likes.any
        (fun l => l.post_id == pid && l.user_id == uid) = true := by
      rw [List.any_eq_true]
      exact ⟨a, ha, by simp [h1, h2]⟩
    rw [Database.like_exists] at hne
    simp [this] at hne

theorem register_preserves (st : DBState) (req : RegisterRequest)
    (newId now : Nat) (h : Invariant st) :
    Invariant (Handlers.register st req newId now).2 := by
  by_cases hc : (st.users.any (fun x => x.id == newId) ||
      st.users.any (fun x => x.username == req.username)) = true
  · simp only [Handlers.register, Database.create_user, hc, if_true]
    exact h
  · simp only [Handlers.register, Database.create_user, hc, if_false,
      Bool.not_true, Bool.false_eq_true]
    exact invariant_users_append st _ h

theorem login_state (st : DBState) (req : LoginRequest) (now : Nat) :
    (Handlers.login st req now).2 = st := by
  unfold Handlers.login
  split
  · rfl
  · split <;> rfl

theorem create_post_preserves (st : DBState) (auth : Option Token)
    (req : CreatePostRequest) (newId now : Nat) (h : Invariant st) :
    Invariant (Handlers.create_post st auth req newId now).2 := by
  unfold Handlers.create_post
  cases hx : Handlers.extract_user_id auth now with
  | error e => exact h
  | ok uid =>
    by_cases hc : (st.posts.any (fun x => x.id == newId)) = true
    · simp only [Database.create_post, hc, if_true]
      exact h
    · by_cases hf : (st.users.any (fun u => u.id == uid)) = true
      · simp only [Database.create_post, hc, hf, if_false, Bool.not_true,
          Bool.false_eq_true, if_true]
        exact invariant_posts_append st _ rfl h
      · simp only [Database.create_post, hc, hf, if_false, Bool.not_false,
          Bool.false_eq_true, if_true]
        exact h

theorem delete_post_preserves (st : DBState) (auth : Option Token)
    (id now : Nat) (h : Invariant st) :
    Invariant (Handlers.delete_post st auth id now).2 := by
  unfold Handlers.delete_post
  cases hx : Handlers.extract_user_id auth now with
  | error e => exact h
  | ok uid =>
    by_cases hc : Database.check_post_ownership st id uid = true
    · simp only [Database.delete_post, hc, Bool.not_true, Bool.false_eq_true,
        if_false]
      split
      · exact invariant_likes_filter st _ h
      · exact invariant_likes_filter st _ h
    · simp only [Database.delete_post, hc, Bool.not_false, if_true,
        Bool.not_true]
      exact h

theorem like_post_preserves (st : DBState) (auth : Option Token)
    (id now : Nat) (h : Invariant st) :
    Invariant (Handlers.like_post st auth id now).2 := by
  unfold Handlers.like_post
  cases hx : Handlers.extract_user_id auth now with
  | error e => exact h
  | ok uid =>
    by_cases hp : Database.check_post_exists st id = true
    · by_cases hl : Database.like_exists st id uid = true
      · simp only [Database.like_post, hp, hl, Bool.not_true,
          Bool.false_eq_true, if_false, if_true]
        exact h
      · by_cases hu : (st.users.any (fun u => u.id == uid)) = true
        · simp only [Database.like_post, hp, hl, hu, Bool.not_true,
            Bool.false_eq_true, if_false, Bool.not_false, if_true]
          exact invariant_likes_append st id uid hp hu
            (Bool.not_eq_true _ ▸ hl) h
        · simp only [Database.like_post, hp, hl, hu, Bool.not_true,
            Bool.false_eq_true, if_false, Bool.not_false, if_true]
          exact h
    · simp only [Database.like_post, hp, Bool.not_false, if_true]
      exact h

theorem reachable_invariant (st : DBState) (h : Reachable st) :
    Invariant st := by
  induction h with
  | init =>
    refine ⟨⟨?_, List.Pairwise.nil⟩, ?_⟩
    · intro l hl
      cases hl
    · intro p hp
      cases hp
  | step_register st req newId now _ ih => exact register_preserves st req newId now ih
  | step_login st req now _ ih =>
    rw [login_state]
    exact ih
  | step_create_post st auth req newId now _ ih =>
    exact create_post_preserves st auth req newId now ih
  | step_delete_post st auth id now _ ih =>
    exact delete_post_preserves st auth id now ih
  | step_like_post st auth id now _ ih =>
    exact like_post_preserves st auth id now ih

/-- C5 counterexample: a token issued at time 0 (expiration instant
0 + 24*3600 = 86400) still verifies at the expiration instant itself, so
the claim that verification fails at and after that instant is false.
verify_jwt goes through jsonwebtoken Validation::default(), which rejects
only when exp < now - leeway; at now = exp the token is accepted (and it
remains accepted through the 60-second default leeway). -/
theorem C5_counterexample :
    verify_jwt (create_jwt 7 0) (0 + 24 * 3600) = some 7 := by rfl

/-- C5 amended: a token issued by create_jwt at time t for user u verifies
to exactly u at every time up to its expiration instant t + 24*3600 plus
the 60-second default leeway of jsonwebtoken Validation::default(), and
fails (the single none outcome) at every strictly later time.  In
particular it verifies at every time strictly before expiration. -/
theorem C5_token_validity_window (u t now : Nat) :
    verify_jwt (create_jwt u t) now
      = if now ≤ t + 24 * 3600 + jwtLeeway then some u else none := by
  unfold verify_jwt create_jwt jwtLeeway
  by_cases h : now ≤ t + 24 * 3600 + 60
  · have h1 : ¬(t + 24 * 3600 < now - 60) := by omega
    simp [h, h1]
  · have h1 : t + 24 * 3600 < now - 60 := by omega
    simp [h, h1]

/-- C4: login with a nonexistent username and login with an existing
username but a wrong password return the very same response (401
"Invalid credentials") and the same unchanged store, so the caller cannot
distinguish the two failure causes. -/
theorem C4_login_indistinguishable (st : DBState) (req₁ req₂ : LoginRequest)
    (now₁ now₂ : Nat)
    (habsent : Database.get_user_by_username st req₁.username = none)
    (u : User)
    (hfound : Database.get_user_by_username st req₂.username = some u)
    (hwrong : bverify req₂.password u.password_hash = false) :
    Handlers.login st req₁ now₁
      = (.error (.UNAUTHORIZED, "Invalid credentials"), st)
    ∧ Handlers.login st req₂ now₂
      = (.error (.UNAUTHORIZED, "Invalid credentials"), st)
    ∧ Handlers.login st req₁ now₁ = Handlers.login st req₂ now₂ := by
  refine ⟨?_, ?_, ?_⟩ <;>
    simp [Handlers.login, habsent, hfound, hwrong]

theorem C4_witness :
    Database.get_user_by_username
        ⟨[⟨1, "alice", bhash "pw"⟩], [], []⟩ "bob" = none
    ∧ Database.get_user_by_username
        ⟨[⟨1, "alice", bhash "pw"⟩], [], []⟩ "alice"
        = some ⟨1, "alice", bhash "pw"⟩
    ∧ bverify "wrong" (bhash "pw") = false
    ∧ (Handlers.login ⟨[⟨1, "alice", bhash "pw"⟩], [], []⟩ ⟨"bob", "z"⟩ 3
        = (.error (.UNAUTHORIZED, "Invalid credentials"),
           ⟨[⟨1, "alice", bhash "pw"⟩], [], []⟩)
      ∧ Handlers.login ⟨[⟨1, "alice", bhash "pw"⟩], [], []⟩ ⟨"alice", "wrong"⟩ 4
        = (.error (.UNAUTHORIZED, "Invalid credentials"),
           ⟨[⟨1, "alice", bhash "pw"⟩], [], []⟩)
      ∧ Handlers.login ⟨[⟨1, "alice", bhash "pw"⟩], [], []⟩ ⟨"bob", "z"⟩ 3
        = Handlers.login ⟨[⟨1, "alice", bhash "pw"⟩], [], []⟩ ⟨"alice", "wrong"⟩ 4) :=
  ⟨by decide, by decide, by decide,
   C4_login_indistinguishable ⟨[⟨1, "alice", bhash "pw"⟩], [], []⟩
     ⟨"bob", "z"⟩ ⟨"alice", "wrong"⟩ 3 4 (by decide)
     ⟨1, "alice", bhash "pw"⟩ (by decide) (by decide)⟩

theorem register_ok (st : DBState) (req : RegisterRequest) (newId now : Nat)
    (h : (st.users.any (fun x => x.id == newId) ||
        st.users.any (fun x => x.username == req.username)) = false) :
    Handlers.register st req newId now
      = (.ok (.CREATED, create_jwt newId now),
         { st with users := st.users ++
            [{ id := newId, username := req.username,
               password_hash := bhash req.password }] }) := by
  simp [Handlers.register, Database.create_user, Bool.or_eq_false_iff.mp h]

theorem register_err (st : DBState) (req : RegisterRequest) (newId now : Nat)
    (h : (st.users.any (fun x => x.id == newId) ||
        st.users.any (fun x => x.username == req.username)) = true) :
    Handlers.register st req newId now
      = (.error (.INTERNAL_SERVER_ERROR, "Database error"), st) := by
  simp [Handlers.register, Database.create_user, h]

theorem extract_user_id_some (t : Token) (now uid : Nat)
    (h : verify_jwt t now = some uid) :
    Handlers.extract_user_id (some t) now = .ok uid := by
  simp [Handlers.extract_user_id, h]

theorem create_post_handler_ok (st : DBState) (t : Token)
    (req : CreatePostRequest) (newId now uid : Nat)
    (hv : verify_jwt t now = some uid)
    (hfresh : st.posts.any (fun x => x.id == newId) = false)
    (huser : st.users.any (fun u => u.id == uid) = true) :
    Handlers.create_post st (some t) req newId now
      = (.ok (.CREATED, ⟨newId, uid, req.content, 0, now⟩),
         { st with posts := st.posts ++ [⟨newId, uid, req.content, 0, now⟩] }) := by
  simp [Handlers.create_post, Handlers.extract_user_id, hv,
    Database.create_post, hfresh, huser]

theorem delete_post_handler_not_owner (st : DBState) (t : Token)
    (pid now uid : Nat) (hv : verify_jwt t now = some uid)
    (hown : Database.check_post_ownership st pid uid = false) :
    Handlers.delete_post st (some t) pid now
      = (.error (.NOT_FOUND, "Post not found or unauthorized"), st) := by
  simp [Handlers.delete_post, Handlers.extract_user_id, hv,
    Database.delete_post, hown]

theorem delete_post_handler_owner (st : DBState) (t : Token)
    (pid now uid : Nat) (hv : verify_jwt t now = some uid)
    (hown : Database.check_post_ownership st pid uid = true) :
    Handlers.delete_post st (some t) pid now
      = (if 0 < (st.likes.filter (fun l => l.post_id == pid)).length
          then .ok .NO_CONTENT
          else .error (.NOT_FOUND, "Post not found or unauthorized"),
         { st with likes := st.likes.filter (fun l => !(l.post_id == pid)) }) := by
  by_cases hd : 0 < (st.likes.filter (fun l => l.post_id == pid)).length
  · simp [Handlers.delete_post, Handlers.extract_user_id, hv,
      Database.delete_post, hown, hd]
  · simp [Handlers.delete_post, Handlers.extract_user_id, hv,
      Database.delete_post, hown, hd]

theorem like_post_handler_ok (st : DBState) (t : Token) (pid now uid : Nat)
    (hv : verify_jwt t now = some uid)
    (hp : Database.check_post_exists st pid = true)
    (hl : Database.like_exists st pid uid = false)
    (hu : st.users.any (fun u => u.id == uid) = true) :
    Handlers.like_post st (some t) pid now
      = (.ok .OK, { st with likes := st.likes ++ [⟨pid, uid⟩] }) := by
  simp [Handlers.like_post, Handlers.extract_user_id, hv,
    Database.like_post, hp, hl, hu]

theorem like_post_handler_dup (st : DBState) (t : Token) (pid now uid : Nat)
    (hv : verify_jwt t now = some uid)
    (hp : Database.check_post_exists st pid = true)
    (hl : Database.like_exists st pid uid = true) :
    Handlers.like_post st (some t) pid now
      = (.error (.NOT_ACCEPTABLE, "Post not found or already liked"), st) := by
  simp [Handlers.like_post, Handlers.extract_user_id, hv,
    Database.like_post, hp, hl]

/-- C3 counterexample: registering "alice" twice from the empty store — the
second call fails with the generic storage-error response 500
"Database error" (the handler maps every store Err to it, and the
username-UNIQUE violation arrives as a store Err), whose status is not a
Conflict status, so the claimed distinct Conflict error kind is not what
the code produces. -/
theorem C3_counterexample :
    (Handlers.register
        (Handlers.register ⟨[], [], []⟩ ⟨"alice", "pw"⟩ 1 0).2
        ⟨"alice", "pw2"⟩ 2 5).1
      = .error (.INTERNAL_SERVER_ERROR, "Database error")
    ∧ StatusCode.INTERNAL_SERVER_ERROR ≠ StatusCode.CONFLICT :=
  ⟨rfl, by decide⟩

/-- C3 amended: registering twice with the same username succeeds the first
time (creating the user and returning a token) and fails the second time
with the generic storage-error response (500 "Database error": the
username-UNIQUE violation surfaces as a store Err, which handlers.rs maps
to the same response as any other database failure, not a distinct
Conflict kind), leaving the first user's record unchanged. -/
theorem C3_register_twice (st : DBState) (req₁ req₂ : RegisterRequest)
    (id₁ id₂ now₁ now₂ : Nat)
    (hsame : req₂.username = req₁.username)
    (hid : st.users.any (fun x => x.id == id₁) = false)
    (hname : st.users.any (fun x => x.username == req₁.username) = false) :
    (Handlers.register st req₁ id₁ now₁).1
      = .ok (.CREATED, create_jwt id₁ now₁)
    ∧ (Handlers.register (Handlers.register st req₁ id₁ now₁).2
        req₂ id₂ now₂).1
      = .error (.INTERNAL_SERVER_ERROR, "Database error")
    ∧ Database.get_user_by_username
        (Handlers.register (Handlers.register st req₁ id₁ now₁).2
          req₂ id₂ now₂).2 req₁.username
      = some ⟨id₁, req₁.username, bhash req₁.password⟩ := by
  have hcond1 : (st.users.any (fun x => x.id == id₁) ||
      st.users.any (fun x => x.username == req₁.username)) = false := by
    rw [hid, hname]
    rfl
  have h1 := register_ok st req₁ id₁ now₁ hcond1
  have hfind : st.users.find? (fun u => u.username == req₁.username) = none := by
    rw [List.find?_eq_none]
    intro x hx hc
    have hany : st.users.any (fun x => x.username == req₁.username) = true :=
      List.any_eq_true.mpr ⟨x, hx, hc⟩
    rw [hname] at hany
    exact Bool.false_ne_true hany
  have hdup : ((st.users ++
      [(⟨id₁, req₁.username, bhash req₁.password⟩ : User)]).any
        (fun x => x.username == req₂.username)) = true := by
    rw [List.any_append]
    simp [hsame]
  have hcond2 : (((st.users ++
      [(⟨id₁, req₁.username, bhash req₁.password⟩ : User)]).any
        (fun x => x.id == id₂)) ||
      ((st.users ++
      [(⟨id₁, req₁.username, bhash req₁.password⟩ : User)]).any
        (fun x => x.username == req₂.username))) = true := by
    rw [hdup, Bool.or_true]
  have h2 := register_err
    { st with users := st.users ++
        [(⟨id₁, req₁.username, bhash req₁.password⟩ : User)] }
    req₂ id₂ now₂ hcond2
  refine ⟨by rw [h1], ?_, ?_⟩
  · rw [h1]
    rw [h2]
  · rw [h1]
    rw [h2]
    show Database.get_user_by_username
      { st with users := st.users ++
          [(⟨id₁, req₁.username, bhash req₁.password⟩ : User)] }
      req₁.username = _
    simp only [Database.get_user_by_username, List.find?_append, hfind,
      Option.none_or]
    simp

theorem C3_witness :
    ("alice" : String) = "alice"
    ∧ (DBState.mk [] [] []).users.any (fun x => x.id == 1) = false
    ∧ (DBState.mk [] [] []).users.any (fun x => x.username == "alice") = false
    ∧ ((Handlers.register ⟨[], [], []⟩ ⟨"alice", "pw"⟩ 1 0).1
        = .ok (.CREATED, create_jwt 1 0)
      ∧ (Handlers.register (Handlers.register ⟨[], [], []⟩ ⟨"alice", "pw"⟩ 1 0).2
          ⟨"alice", "pw2"⟩ 2 5).1
        = .error (.INTERNAL_SERVER_ERROR, "Database error")
      ∧ Database.get_user_by_username
          (Handlers.register (Handlers.register ⟨[], [], []⟩ ⟨"alice", "pw"⟩ 1 0).2
            ⟨"alice", "pw2"⟩ 2 5).2 "alice"
        = some ⟨1, "alice", bhash "pw"⟩) :=
  ⟨rfl, by decide, by decide,
   C3_register_twice ⟨[], [], []⟩ ⟨"alice", "pw"⟩ ⟨"alice", "pw2"⟩ 1 2 0 5
     rfl (by decide) (by decide)⟩

/-- C1 (code divergence): user 1 registers, creates post 10, likes it, then
deletes it with a valid token.  delete_post reports success (204 No
Content) and the likes rows are gone, but Database::delete_post only ever
executes DELETE FROM likes (db.rs lines 103-106) — the posts row is never
deleted, so get_post on the id afterwards still returns the post instead
of the not-found outcome the claim requires. -/
theorem C1_delete_reports_success_but_post_remains :
    ((Handlers.delete_post
        (Handlers.like_post
          (Handlers.create_post
            (Handlers.register ⟨[], [], []⟩ ⟨"alice", "pw"⟩ 1 0).2
            (some (create_jwt 1 0)) ⟨"hello"⟩ 10 0).2
          (some (create_jwt 1 0)) 10 0).2
        (some (create_jwt 1 0)) 10 0).1 = .ok .NO_CONTENT)
    ∧ ((Handlers.delete_post
        (Handlers.like_post
          (Handlers.create_post
            (Handlers.register ⟨[], [], []⟩ ⟨"alice", "pw"⟩ 1 0).2
            (some (create_jwt 1 0)) ⟨"hello"⟩ 10 0).2
          (some (create_jwt 1 0)) 10 0).2
        (some (create_jwt 1 0)) 10 0).2).likes = []
    ∧ Handlers.get_post
        (Handlers.delete_post
          (Handlers.like_post
            (Handlers.create_post
              (Handlers.register ⟨[], [], []⟩ ⟨"alice", "pw"⟩ 1 0).2
              (some (create_jwt 1 0)) ⟨"hello"⟩ 10 0).2
            (some (create_jwt 1 0)) 10 0).2
          (some (create_jwt 1 0)) 10 0).2 10
      = .ok ⟨10, 1, "hello", 0, 0⟩ :=
  ⟨rfl, rfl, rfl⟩

/-- C8 counterexample: with a valid token, create_post with empty content
succeeds (201 Created) and stores the post — the handler performs no
content validation at all (handlers.rs lines 92-121 use req.content
directly), so the claimed ValidationFailure never occurs. -/
theorem C8_counterexample :
    verify_jwt (create_jwt 1 0) 0 = some 1
    ∧ (Handlers.create_post ⟨[⟨1, "alice", "x"⟩], [], []⟩
        (some (create_jwt 1 0)) ⟨""⟩ 10 0).1
      = .ok (.CREATED, ⟨10, 1, "", 0, 0⟩)
    ∧ ((Handlers.create_post ⟨[⟨1, "alice", "x"⟩], [], []⟩
        (some (create_jwt 1 0)) ⟨""⟩ 10 0).2).posts
      = [⟨10, 1, "", 0, 0⟩] :=
  ⟨rfl, rfl, rfl⟩

/-- C8 amended: for every valid token (verifying to a registered user) and
fresh post id, create_post invoked with empty content succeeds exactly as
with any other content: it returns 201 Created and appends the post, with
the empty string as its stored content — no validation failure exists. -/
theorem C8_create_post_empty_content_succeeds (st : DBState) (t : Token)
    (uid newId now : Nat) (hv : verify_jwt t now = some uid)
    (hfresh : st.posts.any (fun x => x.id == newId) = false)
    (huser : st.users.any (fun u => u.id == uid) = true) :
    Handlers.create_post st (some t) ⟨""⟩ newId now
      = (.ok (.CREATED, ⟨newId, uid, "", 0, now⟩),
         { st with posts := st.posts ++ [⟨newId, uid, "", 0, now⟩] }) :=
  create_post_handler_ok st t ⟨""⟩ newId now uid hv hfresh huser

theorem C8_witness :
    verify_jwt (create_jwt 2 7) 7 = some 2
    ∧ (DBState.mk [⟨2, "bob", "y"⟩] [] []).posts.any (fun x => x.id == 5) = false
    ∧ (DBState.mk [⟨2, "bob", "y"⟩] [] []).users.any (fun u => u.id == 2) = true
    ∧ Handlers.create_post ⟨[⟨2, "bob", "y"⟩], [], []⟩
        (some (create_jwt 2 7)) ⟨""⟩ 5 7
      = (.ok (.CREATED, ⟨5, 2, "", 0, 7⟩),
         ⟨[⟨2, "bob", "y"⟩], [⟨5, 2, "", 0, 7⟩], []⟩) :=
  ⟨by decide, by decide, by decide,
   C8_create_post_empty_content_succeeds ⟨[⟨2, "bob", "y"⟩], [], []⟩
     (create_jwt 2 7) 2 5 7 (by decide) (by decide) (by decide)⟩

/-- C2: for an existing post and an authenticated registered user who has
not yet liked it, two sequential like_post calls: the first succeeds (200),
the second fails with the duplicate-like outcome (the handler's single
failure response 406 "Post not found or already liked", the code's
realisation of Conflict/"already liked"), and exactly one Like row for the
(post, user) pair exists afterwards. -/
theorem C2_like_twice (st : DBState) (t : Token) (uid pid now₁ now₂ : Nat)
    (hv₁ : verify_jwt t now₁ = some uid) (hv₂ : verify_jwt t now₂ = some uid)
    (hpost : Database.check_post_exists st pid = true)
    (huser : st.users.any (fun u => u.id == uid) = true)
    (hfresh : Database.like_exists st pid uid = false) :
    (Handlers.like_post st (some t) pid now₁).1 = .ok .OK
    ∧ (Handlers.like_post (Handlers.like_post st (some t) pid now₁).2
        (some t) pid now₂).1
      = .error (.NOT_ACCEPTABLE, "Post not found or already liked")
    ∧ (((Handlers.like_post (Handlers.like_post st (some t) pid now₁).2
          (some t) pid now₂).2).likes.filter
        (fun l => l.post_id == pid && l.user_id == uid)).length = 1 := by
  have h1 := like_post_handler_ok st t pid now₁ uid hv₁ hpost hfresh huser
  have hp1 : Database.check_post_exists
      { st with likes := st.likes ++ [⟨pid, uid⟩] } pid = true := hpost
  have hl1 : Database.like_exists
      { st with likes := st.likes ++ [⟨pid, uid⟩] } pid uid = true := by
    simp [Database.like_exists, List.any_append]
  have h2 := like_post_handler_dup
    { st with likes := st.likes ++ [⟨pid, uid⟩] } t pid now₂ uid hv₂ hp1 hl1
  have hnil : st.likes.filter
      (fun l => l.post_id == pid && l.user_id == uid) = [] := by
    rw [List.filter_eq_nil_iff]
    intro a ha hc
    have hany : Database.like_exists st pid uid = true :=
      List.any_eq_true.mpr ⟨a, ha, hc⟩
    rw [hfresh] at hany
    exact Bool.false_ne_true hany
  refine ⟨by rw [h1], ?_, ?_⟩
  · rw [h1]
    rw [h2]
  · rw [h1]
    rw [h2]
    show ((st.likes ++ [(⟨pid, uid⟩ : Like)]).filter
        (fun l : Like => l.post_id == pid && l.user_id == uid)).length = 1
    rw [List.filter_append, hnil]
    simp

theorem C2_witness :
    verify_jwt (create_jwt 1 0) 0 = some 1
    ∧ Database.check_post_exists ⟨[⟨1, "alice", "x"⟩], [⟨10, 1, "hi", 0, 0⟩], []⟩ 10 = true
    ∧ (DBState.mk [⟨1, "alice", "x"⟩] [⟨10, 1, "hi", 0, 0⟩] []).users.any
        (fun u => u.id == 1) = true
    ∧ Database.like_exists ⟨[⟨1, "alice", "x"⟩], [⟨10, 1, "hi", 0, 0⟩], []⟩ 10 1 = false
    ∧ ((Handlers.like_post ⟨[⟨1, "alice", "x"⟩], [⟨10, 1, "hi", 0, 0⟩], []⟩
          (some (create_jwt 1 0)) 10 0).1 = .ok .OK
      ∧ (Handlers.like_post
          (Handlers.like_post ⟨[⟨1, "alice", "x"⟩], [⟨10, 1, "hi", 0, 0⟩], []⟩
            (some (create_jwt 1 0)) 10 0).2
          (some (create_jwt 1 0)) 10 0).1
        = .error (.NOT_ACCEPTABLE, "Post not found or already liked")
      ∧ (((Handlers.like_post
            (Handlers.like_post ⟨[⟨1, "alice", "x"⟩], [⟨10, 1, "hi", 0, 0⟩], []⟩
              (some (create_jwt 1 0)) 10 0).2
            (some (create_jwt 1 0)) 10 0).2).likes.filter
          (fun l => l.post_id == 10 && l.user_id == 1)).length = 1) :=
  ⟨by decide, by decide, by decide, by decide,
   C2_like_twice ⟨[⟨1, "alice", "x"⟩], [⟨10, 1, "hi", 0, 0⟩], []⟩
     (create_jwt 1 0) 1 10 0 0 (by decide) (by decide) (by decide)
     (by decide) (by decide)⟩

/-- C6: delete_post by an authenticated caller who is not the owner of an
existing post returns the single merged 404 "Post not found or
unauthorized" outcome and leaves the store unchanged; get_post on that id
afterwards still returns the post.  Post ids are assumed pairwise distinct
(the posts id PRIMARY KEY). -/
theorem C6_nonowner_delete_leaves_post (st : DBState) (t : Token)
    (uid pid now : Nat) (hv : verify_jwt t now = some uid)
    (p : Post) (hpost : Database.get_post st pid = some p)
    (hids : (st.posts.map Post.id).Nodup)
    (hnot : p.user_id ≠ uid) :
    Handlers.delete_post st (some t) pid now
      = (.error (.NOT_FOUND, "Post not found or unauthorized"), st)
    ∧ Handlers.get_post ((Handlers.delete_post st (some t) pid now).2) pid
      = .ok p := by
  have hmem : p ∈ st.posts := List.mem_of_find?_eq_some hpost
  have hpe : p.id = pid := by
    have := List.find?_some hpost
    simpa using this
  have hown : Database.check_post_ownership st pid uid = false := by
    by_contra hc
    rw [Bool.not_eq_false] at hc
    obtain ⟨q, hq, hqc⟩ := List.any_eq_true.mp hc
    have hqid : q.id = pid ∧ q.user_id = uid := by simpa using hqc
    have hqp : q = p :=
      List.inj_on_of_nodup_map hids hq hmem (by rw [hqid.1, hpe])
    exact hnot (by rw [← hqp]; exact hqid.2)
  have h := delete_post_handler_not_owner st t pid now uid hv hown
  refine ⟨h, ?_⟩
  rw [h]
  simp [Handlers.get_post, hpost]

theorem C6_witness :
    verify_jwt (create_jwt 2 0) 0 = some 2
    ∧ Database.get_post
        ⟨[⟨1, "alice", "x"⟩, ⟨2, "bob", "y"⟩], [⟨10, 1, "hi", 0, 0⟩], []⟩ 10
      = some ⟨10, 1, "hi", 0, 0⟩
    ∧ ((DBState.mk [⟨1, "alice", "x"⟩, ⟨2, "bob", "y"⟩]
        [⟨10, 1, "hi", 0, 0⟩] []).posts.map Post.id).Nodup
    ∧ (1 : Nat) ≠ 2
    ∧ (Handlers.delete_post
        ⟨[⟨1, "alice", "x"⟩, ⟨2, "bob", "y"⟩], [⟨10, 1, "hi", 0, 0⟩], []⟩
        (some (create_jwt 2 0)) 10 0
      = (.error (.NOT_FOUND, "Post not found or unauthorized"),
         ⟨[⟨1, "alice", "x"⟩, ⟨2, "bob", "y"⟩], [⟨10, 1, "hi", 0, 0⟩], []⟩)
      ∧ Handlers.get_post
          ((Handlers.delete_post
            ⟨[⟨1, "alice", "x"⟩, ⟨2, "bob", "y"⟩], [⟨10, 1, "hi", 0, 0⟩], []⟩
            (some (create_jwt 2 0)) 10 0).2) 10
        = .ok ⟨10, 1, "hi", 0, 0⟩) :=
  ⟨by decide, by decide, by decide, by decide,
   C6_nonowner_delete_leaves_post
     ⟨[⟨1, "alice", "x"⟩, ⟨2, "bob", "y"⟩], [⟨10, 1, "hi", 0, 0⟩], []⟩
     (create_jwt 2 0) 2 10 0 (by decide) ⟨10, 1, "hi", 0, 0⟩ (by decide)
     (by decide) (by decide)⟩

/-- C9: for an authenticated caller, delete_post reports success (204)
exactly when the caller owns an existing post with that id AND at least one
likes row for that post id existed before the call (the DELETE targets the
likes table and success is result > 0 on it); in particular, with ownership
but zero likes it returns the 404 "Post not found or unauthorized" failure
and leaves the store unchanged. -/
theorem C9_delete_success_criterion (st : DBState) (t : Token)
    (uid pid now : Nat) (hv : verify_jwt t now = some uid) :
    ((Handlers.delete_post st (some t) pid now).1 = .ok .NO_CONTENT ↔
      (Database.check_post_ownership st pid uid = true ∧
        0 < (st.likes.filter (fun l => l.post_id == pid)).length))
    ∧ (Database.check_post_ownership st pid uid = true →
        (st.likes.filter (fun l => l.post_id == pid)).length = 0 →
        Handlers.delete_post st (some t) pid now
          = (.error (.NOT_FOUND, "Post not found or unauthorized"), st)) := by
  constructor
  · by_cases hown : Database.check_post_ownership st pid uid = true
    · rw [delete_post_handler_owner st t pid now uid hv hown]
      by_cases hd : 0 < (st.likes.filter (fun l => l.post_id == pid)).length
      · simp [hd, hown]
      · simp [hd, hown]
    · rw [Bool.not_eq_true] at hown
      rw [delete_post_handler_not_owner st t pid now uid hv hown]
      simp [hown]
  · intro hown hz
    rw [delete_post_handler_owner st t pid now uid hv hown]
    have hfe : st.likes.filter (fun l => l.post_id == pid) = [] :=
      List.length_eq_zero.mp hz
    have hall : st.likes.filter (fun l => !(l.post_id == pid)) = st.likes := by
      rw [List.filter_eq_self]
      intro a ha
      have hna := List.filter_eq_nil_iff.mp hfe a ha
      simpa using hna
    have hnd : ¬ 0 < (st.likes.filter (fun l => l.post_id == pid)).length := by
      rw [hz]
      exact Nat.lt_irrefl 0
    rw [hall, if_neg hnd]

theorem C9_witness :
    verify_jwt (create_jwt 1 0) 0 = some 1
    ∧ ((((Handlers.delete_post ⟨[⟨1, "a", "x"⟩], [⟨10, 1, "h", 0, 0⟩], []⟩
          (some (create_jwt 1 0)) 10 0).1 = .ok .NO_CONTENT) ↔
        (Database.check_post_ownership
            ⟨[⟨1, "a", "x"⟩], [⟨10, 1, "h", 0, 0⟩], []⟩ 10 1 = true ∧
          0 < (((DBState.mk [⟨1, "a", "x"⟩] [⟨10, 1, "h", 0, 0⟩] []).likes.filter
            (fun l => l.post_id == 10))).length))
      ∧ (Database.check_post_ownership
            ⟨[⟨1, "a", "x"⟩], [⟨10, 1, "h", 0, 0⟩], []⟩ 10 1 = true →
          (((DBState.mk [⟨1, "a", "x"⟩] [⟨10, 1, "h", 0, 0⟩] []).likes.filter
            (fun l => l.post_id == 10))).length = 0 →
          Handlers.delete_post ⟨[⟨1, "a", "x"⟩], [⟨10, 1, "h", 0, 0⟩], []⟩
            (some (create_jwt 1 0)) 10 0
            = (.error (.NOT_FOUND, "Post not found or unauthorized"),
               ⟨[⟨1, "a", "x"⟩], [⟨10, 1, "h", 0, 0⟩], []⟩))) :=
  ⟨by decide,
   C9_delete_success_criterion ⟨[⟨1, "a", "x"⟩], [⟨10, 1, "h", 0, 0⟩], []⟩
     (create_jwt 1 0) 1 10 0 (by decide)⟩

/-- C10: a successful like_post inserts exactly one likes row (for the
authenticated caller and the given post) and leaves the posts and users
tables unchanged; moreover no operation ever updates likes_count, so in
every reachable state every stored post still has its creation-default
likes_count of 0. -/
theorem C10_like_post_frame (st : DBState) (auth : Option Token)
    (pid now : Nat)
    (hsucc : (Handlers.like_post st auth pid now).1 = .ok .OK) :
    (∃ uid, Handlers.extract_user_id auth now = .ok uid ∧
       (Handlers.like_post st auth pid now).2
         = { st with likes := st.likes ++ [⟨pid, uid⟩] })
    ∧ ((Handlers.like_post st auth pid now).2).posts = st.posts
    ∧ ((Handlers.like_post st auth pid now).2).users = st.users
    ∧ ((Handlers.like_post st auth pid now).2).likes.length
        = st.likes.length + 1
    ∧ ∀ st' : DBState, Reachable st' → PostsLikesCountZero st' := by
  have hmain : ∃ uid, Handlers.extract_user_id auth now = .ok uid ∧
      (Handlers.like_post st auth pid now).2
        = { st with likes := st.likes ++ [⟨pid, uid⟩] } := by
    cases hx : Handlers.extract_user_id auth now with
    | error e =>
      simp only [Handlers.like_post, hx] at hsucc
      cases hsucc
    | ok uid =>
      refine ⟨uid, rfl, ?_⟩
      by_cases hp : Database.check_post_exists st pid = true
      · by_cases hl : Database.like_exists st pid uid = true
        · simp only [Handlers.like_post, hx, Database.like_post, hp, hl,
            Bool.not_true, Bool.false_eq_true, if_false, if_true] at hsucc
          cases hsucc
        · by_cases hu : (st.users.any (fun u => u.id == uid)) = true
          · simp only [Handlers.like_post, hx, Database.like_post, hp, hl,
              hu, Bool.not_true, Bool.false_eq_true, if_false,
              Bool.not_false, if_true]
          · simp only [Handlers.like_post, hx, Database.like_post, hp, hl,
              hu, Bool.not_true, Bool.false_eq_true, if_false,
              Bool.not_false, if_true] at hsucc
            cases hsucc
      · simp only [Handlers.like_post, hx, Database.like_post, hp,
          Bool.not_false, if_true] at hsucc
        cases hsucc
  obtain ⟨uid, hx, hstate⟩ := hmain
  refine ⟨⟨uid, hx, hstate⟩, ?_, ?_, ?_, ?_⟩
  · rw [hstate]
  · rw [hstate]
  · rw [hstate]
    simp
  · intro st' h
    exact (reachable_invariant st' h).2

theorem C10_witness :
    (Handlers.like_post ⟨[⟨1, "alice", "x"⟩], [⟨10, 1, "hi", 0, 0⟩], []⟩
        (some (create_jwt 1 0)) 10 0).1 = .ok .OK
    ∧ ((∃ uid, Handlers.extract_user_id (some (create_jwt 1 0)) 0 = .ok uid ∧
        (Handlers.like_post ⟨[⟨1, "alice", "x"⟩], [⟨10, 1, "hi", 0, 0⟩], []⟩
            (some (create_jwt 1 0)) 10 0).2
          = { DBState.mk [⟨1, "alice", "x"⟩] [⟨10, 1, "hi", 0, 0⟩] [] with
              likes := (DBState.mk [⟨1, "alice", "x"⟩]
                [⟨10, 1, "hi", 0, 0⟩] []).likes ++ [⟨10, uid⟩] })
      ∧ ((Handlers.like_post ⟨[⟨1, "alice", "x"⟩], [⟨10, 1, "hi", 0, 0⟩], []⟩
          (some (create_jwt 1 0)) 10 0).2).posts
          = (DBState.mk [⟨1, "alice", "x"⟩] [⟨10, 1, "hi", 0, 0⟩] []).posts
      ∧ ((Handlers.like_post ⟨[⟨1, "alice", "x"⟩], [⟨10, 1, "hi", 0, 0⟩], []⟩
          (some (create_jwt 1 0)) 10 0).2).users
          = (DBState.mk [⟨1, "alice", "x"⟩] [⟨10, 1, "hi", 0, 0⟩] []).users
      ∧ ((Handlers.like_post ⟨[⟨1, "alice", "x"⟩], [⟨10, 1, "hi", 0, 0⟩], []⟩
          (some (create_jwt 1 0)) 10 0).2).likes.length
          = (DBState.mk [⟨1, "alice", "x"⟩] [⟨10, 1, "hi", 0, 0⟩] []).likes.length + 1
      ∧ ∀ st' : DBState, Reachable st' → PostsLikesCountZero st') :=
  ⟨rfl,
   C10_like_post_frame ⟨[⟨1, "alice", "x"⟩], [⟨10, 1, "hi", 0, 0⟩], []⟩
     (some (create_jwt 1 0)) 10 0 rfl⟩

/-- C7: in every state reachable by any sequence of the service's
operations, the likes table satisfies the data-model invariant: every Like
references an existing Post and an existing User, and no two likes share
the same (post id, user id) pair. -/
theorem C7_likes_table_invariant (st : DBState) (h : Reachable st) :
    LikesInvariant st :=
  (reachable_invariant st h).1

theorem C7_witness :
    Reachable ((Handlers.like_post
      ((Handlers.create_post
        ((Handlers.register ⟨[], [], []⟩ ⟨"alice", "pw"⟩ 1 0).2)
        (some (create_jwt 1 0)) ⟨"hello"⟩ 10 0).2)
      (some (create_jwt 1 0)) 10 0).2)
    ∧ LikesInvariant ((Handlers.like_post
      ((Handlers.create_post
        ((Handlers.register ⟨[], [], []⟩ ⟨"alice", "pw"⟩ 1 0).2)
        (some (create_jwt 1 0)) ⟨"hello"⟩ 10 0).2)
      (some (create_jwt 1 0)) 10 0).2) :=
  ⟨Reachable.step_like_post _ _ _ _
     (Reachable.step_create_post _ _ _ _ _
       (Reachable.step_register _ _ _ _ Reachable.init)),
   C7_likes_table_invariant _
     (Reachable.step_like_post _ _ _ _
       (Reachable.step_create_post _ _ _ _ _
         (Reachable.step_register _ _ _ _ Reachable.init)))⟩
